import Mathlib

/-!
Shallow embedding of the service-dashboard core (`src/app.py`,
class `ServiceDashboard`): the data model for loaded tables, the
multi-source merge, the KPI calculators, and the progress-bar
threshold formatter, together with theorems settling the frozen
claims about this code.

Modelling conventions, used throughout:
* A pandas cell value is `Value`: a rational number (`num`), a string
  (`str`), or the missing marker `na` (NaN).  Machine floats are
  modelled by exact rationals.
* A `Record` is an association list from column name to value; a
  column a record does not carry reads as `na`, exactly as a pandas
  row reads NaN in a column it has no data for.
* A `Table` is a column list plus a row list.  Column membership in
  `Table.cols` models `c in df.columns`.
* Python's broad `try/except: return 0` guards are modelled by
  explicit branches at each operation that raises in pandas
  (`KeyError` on a missing column, `TypeError` on string/number
  comparison or on summing mixed types).
-/

unseal Rat.add Rat.mul Rat.inv Rat.sub Rat.ofScientific

/-- A single cell of a loaded table: number, string, or NaN. -/
inductive Value where
  | num (q : ℚ)
  | str (s : String)
  | na
deriving DecidableEq, Repr

/-- Models `pd.notna`. -/
def Value.notna : Value → Bool
  | .na => false
  | _ => true

/-- True when the cell holds a Python `str`. -/
def Value.isStr : Value → Bool
  | .str _ => true
  | _ => false

/-- A row: association list from column name to cell value. -/
abbrev Record := List (String × Value)

/-- Reading column `c` of a row; a column the row does not carry reads NaN. -/
def Record.get (r : Record) (c : String) : Value :=
  (r.lookup c).getD Value.na

/-- A loaded dataframe: its column names and its rows. -/
structure Table where
  cols : List String
  rows : List Record
deriving DecidableEq, Repr

/-- Models pandas elementwise `==` between a cell and a scalar: NaN compares
unequal to everything (including NaN), and values of different kinds compare
unequal. -/
def valEq : Value → Value → Bool
  | .num a, .num b => a = b
  | .str a, .str b => a = b
  | _, _ => false

/-- Models pandas elementwise `>` between a cell and a numeric scalar:
true only for a numeric cell strictly above the bound (NaN compares false).
Callers are responsible for the `TypeError` a string cell would raise. -/
def valGT (v : Value) (bound : ℚ) : Bool :=
  match v with
  | .num x => bound < x
  | _ => false

/-- Whitespace removal of Python `str.strip()`, over the character list of a
string (library `String.trim` is not kernel-reducible, so the model carries
its own copy of the same operation). -/
def pyStrip (l : List Char) : List Char :=
  ((l.dropWhile Char.isWhitespace).reverse.dropWhile Char.isWhitespace).reverse

/-- Models Python `float(s)` on the decimal literals this program feeds it:
optional sign, digits, optional fractional part, surrounding whitespace.
Exotic `float()` inputs (exponents, `inf`, `nan`, underscores) are outside
the data this model is used on and parse to `none`. -/
def pyFloat? (s : String) : Option ℚ :=
  let l := pyStrip s.data
  let sl : ℚ × List Char :=
    match l with
    | '-' :: t => (-1, t)
    | '+' :: t => (1, t)
    | t => (1, t)
  let digits := sl.2.takeWhile Char.isDigit
  let rest := sl.2.dropWhile Char.isDigit
  let intVal : ℕ := digits.foldl (fun a c => a * 10 + (c.toNat - 48)) 0
  match rest with
  | [] => if digits.isEmpty then none else some (sl.1 * intVal)
  | '.' :: frac =>
      if frac.all Char.isDigit ∧ ¬(digits.isEmpty ∧ frac.isEmpty) then
        let fracVal : ℕ := frac.foldl (fun a c => a * 10 + (c.toNat - 48)) 0
        some (sl.1 * ((intVal : ℚ) + (fracVal : ℚ) / (10 : ℚ) ^ frac.length))
      else none
  | _ => none

/-- The shared efficiency normalization of `app.py` (used by
`calculate_avg_job_efficiency`, `calculate_compliance_rate`,
`calculate_on_time_arrival`): the string code path
`val.replace('%', '').strip()` followed by `float(...)`; removing every
`'%'` character is exactly `replace('%', '')`.  A number passes through;
NaN yields nothing. -/
def effParse? : Value → Option ℚ
  | .str s => pyFloat? (String.mk (pyStrip (s.data.filter (fun c => c ≠ '%'))))
  | .num q => some q
  | .na => none

/-- The value parses as an efficiency (drives the denominators that skip
unparsable entries). -/
def effParses (v : Value) : Bool :=
  (effParse? v).isSome

/-- The value parses as an efficiency and is at least 80 (the compliance /
on-time threshold in `app.py`). -/
def effGE80 (v : Value) : Bool :=
  match effParse? v with
  | some q => 80 ≤ q
  | none => false

/-- The value parses as an efficiency and is at least 90 (the five-star
threshold in `app.py`). -/
def effGE90 (v : Value) : Bool :=
  match effParse? v with
  | some q => 90 ≤ q
  | none => false

/-- Models the shared filter prelude of every calculator:
`if technician and technician != 'All': df = df[df['Technician'] == technician]`.
`none` models Python `None`; the empty string is falsy in Python, so it and
`'All'` leave the table untouched.  When the filter is active but the
`Technician` column is absent, pandas raises `KeyError`; the result `none`
models that exception (caught by each calculator's broad `except`). -/
def applyTech (df : Table) (technician : Option String) : Option Table :=
  match technician with
  | none => some df
  | some t =>
    if t = "" ∨ t = "All" then some df
    else if "Technician" ∈ df.cols then
      some { cols := df.cols,
             rows := df.rows.filter (fun r => valEq (r.get "Technician") (Value.str t)) }
    else none

/-- Models `Series.mean()` on a column free of strings: NaN entries are
skipped; the mean of no numbers is NaN (`none`).  Callers model the
`TypeError` string entries would raise before calling this. -/
def pandasMean (vs : List Value) : Option ℚ :=
  let nums := vs.filterMap (fun v => match v with | Value.num q => some q | _ => none)
  if nums.length = 0 then none else some (nums.sum / (nums.length : ℚ))

/-- `ServiceDashboard.calculate_avg_job_efficiency` (src/app.py:217-247):
among rows with a non-missing `Job Efficiency`, normalize each value
(percent strings stripped, numbers passed through), silently skipping
values that parse as neither, and average what remains. -/
def calculate_avg_job_efficiency (df : Table) (technician : Option String) : ℚ :=
  match applyTech df technician with
  | none => 0
  | some d =>
    if "Job Efficiency" ∈ d.cols then
      let effData := d.rows.filter (fun r => (r.get "Job Efficiency").notna)
      if 0 < effData.length then
        let efficiency_values := effData.filterMap (fun r => effParse? (r.get "Job Efficiency"))
        if 0 < efficiency_values.length then
          efficiency_values.sum / (efficiency_values.length : ℚ)
        else 0
      else 0
    else 0

/-- Haystack `l` contains `p` as a contiguous run. -/
def listContains (p : List Char) : List Char → Bool
  | [] => p.isPrefixOf ([] : List Char)
  | c :: t => p.isPrefixOf (c :: t) || listContains p t

/-- ASCII lowercasing of one character (the keyword matching in `app.py`
only ever compares ASCII keywords; Python `str.lower()` agrees with this
on ASCII). -/
def lowerChar (c : Char) : Char :=
  if 65 ≤ c.toNat ∧ c.toNat ≤ 90 then Char.ofNat (c.toNat + 32) else c

/-- Models `series.str.contains(pat, case=False, na=False)` at one cell:
a string cell is searched case-insensitively for `pat` (already lowercase);
a non-string cell gives NaN, which `na=False` turns into `False`. -/
def containsCI (v : Value) (pat : String) : Bool :=
  match v with
  | .str s => listContains pat.data (s.data.map lowerChar)
  | _ => false

/-- `ServiceDashboard.calculate_avg_ticket` (src/app.py:163-179): mean
revenue over completed appointments.  `none` models the NaN Python returns
when every completed row's revenue is missing; a missing `Revenue` or
`Appt Status` column, or a string revenue entry (a `TypeError` inside
`Series.mean`), lands in the broad `except` and gives 0. -/
def calculate_avg_ticket (df : Table) (technician : Option String) : Option ℚ :=
  match applyTech df technician with
  | none => some 0
  | some d =>
    if "Revenue" ∈ d.cols then
      if "Appt Status" ∈ d.cols then
        let completed_jobs := d.rows.filter (fun r => valEq (r.get "Appt Status") (Value.str "Completed"))
        if 0 < completed_jobs.length then
          let revs := completed_jobs.map (fun r => r.get "Revenue")
          if revs.any Value.isStr then some 0 else pandasMean revs
        else some 0
      else some 0
    else some 0

/-- `ServiceDashboard.calculate_job_close_rate` (src/app.py:181-195):
`completed / total * 100`, 0 when the table is empty; a missing
`Appt Status` column raises and degrades to 0. -/
def calculate_job_close_rate (df : Table) (technician : Option String) : ℚ :=
  match applyTech df technician with
  | none => 0
  | some d =>
    if "Appt Status" ∈ d.cols then
      let completed := (d.rows.filter (fun r => valEq (r.get "Appt Status") (Value.str "Completed"))).length
      let total := d.rows.length
      if 0 < total then (completed : ℚ) / (total : ℚ) * 100 else 0
    else 0

/-- `ServiceDashboard.calculate_compliance_rate` (src/app.py:249-283):
among completed rows, count those whose efficiency parses to at least 80
and divide by the number of ALL completed rows; 95 when there are completed
rows but no `Job Efficiency` column; 0 when there are no completed rows,
when every completed row's efficiency is missing, or when `Appt Status`
is absent (the `KeyError` path). -/
def calculate_compliance_rate (df : Table) (technician : Option String) : ℚ :=
  match applyTech df technician with
  | none => 0
  | some d =>
    if "Appt Status" ∈ d.cols then
      let completed_jobs := d.rows.filter (fun r => valEq (r.get "Appt Status") (Value.str "Completed"))
      if 0 < completed_jobs.length then
        if "Job Efficiency" ∈ d.cols then
          let good_efficiency := completed_jobs.filter (fun r => (r.get "Job Efficiency").notna)
          if 0 < good_efficiency.length then
            let compliant_count := (good_efficiency.filter (fun r => effGE80 (r.get "Job Efficiency"))).length
            (compliant_count : ℚ) / (completed_jobs.length : ℚ) * 100
          else 0
        else 95
      else 0
    else 0

/-- `ServiceDashboard.calculate_membership_win_rate` (src/app.py:285-306):
the fraction of rows whose `Items_Sold` text contains "membership"
case-insensitively — or, only when there is no `Items_Sold` column at all,
whose `Service Category` text does (the source uses `if`/`elif`, so the
two columns are never combined). -/
def calculate_membership_win_rate (df : Table) (technician : Option String) : ℚ :=
  match applyTech df technician with
  | none => 0
  | some d =>
    let total_opportunities := d.rows.length
    let membership_wins : ℕ :=
      if "Items_Sold" ∈ d.cols then
        (d.rows.filter (fun r => containsCI (r.get "Items_Sold") "membership")).length
      else if "Service Category" ∈ d.cols then
        (d.rows.filter (fun r => containsCI (r.get "Service Category") "membership")).length
      else 0
    if 0 < total_opportunities then
      (membership_wins : ℚ) / (total_opportunities : ℚ) * 100
    else 0

/-- `ServiceDashboard.calculate_kpi_hydro_jetting` (src/app.py:308-330):
count of rows whose `Service Category` contains "jetting", plus the count
of rows whose `Items_Sold` contains "jetting" (each missing column
contributes 0). -/
def calculate_kpi_hydro_jetting (df : Table) (technician : Option String) : ℕ :=
  match applyTech df technician with
  | none => 0
  | some d =>
    let hydro_count : ℕ :=
      if "Service Category" ∈ d.cols then
        (d.rows.filter (fun r => containsCI (r.get "Service Category") "jetting")).length
      else 0
    let hydro_items : ℕ :=
      if "Items_Sold" ∈ d.cols then
        (d.rows.filter (fun r => containsCI (r.get "Items_Sold") "jetting")).length
      else 0
    hydro_count + hydro_items

/-- `ServiceDashboard.calculate_kpi_descaling` (src/app.py:332-354): same
shape as hydro jetting with the keyword "descal". -/
def calculate_kpi_descaling (df : Table) (technician : Option String) : ℕ :=
  match applyTech df technician with
  | none => 0
  | some d =>
    let descaling_count : ℕ :=
      if "Service Category" ∈ d.cols then
        (d.rows.filter (fun r => containsCI (r.get "Service Category") "descal")).length
      else 0
    let descaling_items : ℕ :=
      if "Items_Sold" ∈ d.cols then
        (d.rows.filter (fun r => containsCI (r.get "Items_Sold") "descal")).length
      else 0
    descaling_count + descaling_items

/-- `ServiceDashboard.calculate_on_time_arrival` (src/app.py:356-392):
with a `Job Efficiency` column, the fraction of parsable efficiency values
at least 80 (the loop skips unparsable strings from both counters);
otherwise the completed/total fraction, and 0 for an empty table or when
`Appt Status` is also absent (the `KeyError` path). -/
def calculate_on_time_arrival (df : Table) (technician : Option String) : ℚ :=
  match applyTech df technician with
  | none => 0
  | some d =>
    if "Job Efficiency" ∈ d.cols then
      let vals := d.rows.map (fun r => r.get "Job Efficiency")
      let on_time_count := (vals.filter effGE80).length
      let total_count := (vals.filter effParses).length
      if 0 < total_count then (on_time_count : ℚ) / (total_count : ℚ) * 100 else 0
    else if "Appt Status" ∈ d.cols then
      let on_time := (d.rows.filter (fun r => valEq (r.get "Appt Status") (Value.str "Completed"))).length
      let total := d.rows.length
      if 0 < total then (on_time : ℚ) / (total : ℚ) * 100 else 0
    else 0

/-- `ServiceDashboard.calculate_warranty_call_rate` (src/app.py:429-448):
fraction of rows whose `Service Category` contains "warranty"
case-insensitively (the source's regex `'Warranty|warranty'` with
`case=False` matches exactly the case-insensitive substring "warranty").  -/
def calculate_warranty_call_rate (df : Table) (technician : Option String) : ℚ :=
  match applyTech df technician with
  | none => 0
  | some d =>
    let warranty_calls : ℕ :=
      if "Service Category" ∈ d.cols then
        (d.rows.filter (fun r => containsCI (r.get "Service Category") "warranty")).length
      else 0
    let total_jobs := d.rows.length
    if 0 < total_jobs then (warranty_calls : ℚ) / (total_jobs : ℚ) * 100 else 0

/-- `ServiceDashboard.calculate_upsell_conversion` (src/app.py:450-472):
with a `Total_Items_Qty` column, the fraction of rows with quantity above 1;
otherwise with a `Revenue` column, the fraction of rows with revenue above
1.5 times the mean revenue (NaN mean compares false everywhere); a string
in the compared column raises `TypeError` in pandas and degrades to 0. -/
def calculate_upsell_conversion (df : Table) (technician : Option String) : ℚ :=
  match applyTech df technician with
  | none => 0
  | some d =>
    let total_jobs := d.rows.length
    if "Total_Items_Qty" ∈ d.cols then
      if d.rows.any (fun r => (r.get "Total_Items_Qty").isStr) then 0
      else
        let upsell_jobs := (d.rows.filter (fun r => valGT (r.get "Total_Items_Qty") 1)).length
        if 0 < total_jobs then (upsell_jobs : ℚ) / (total_jobs : ℚ) * 100 else 0
    else if "Revenue" ∈ d.cols then
      if d.rows.any (fun r => (r.get "Revenue").isStr) then 0
      else
        match pandasMean (d.rows.map (fun r => r.get "Revenue")) with
        | none =>
          if 0 < total_jobs then ((0 : ℚ) / (total_jobs : ℚ)) * 100 else 0
        | some avg_revenue =>
          let upsell_jobs := (d.rows.filter (fun r => valGT (r.get "Revenue") (avg_revenue * 1.5))).length
          if 0 < total_jobs then (upsell_jobs : ℚ) / (total_jobs : ℚ) * 100 else 0
    else
      if 0 < total_jobs then ((0 : ℚ) / (total_jobs : ℚ)) * 100 else 0

/-! ## The Merger (`ServiceDashboard.merge_data`, src/app.py:114-161) -/

/-- Worker for `dedupFirst`: keep elements not seen before. -/
def dedupFirstAux {α : Type} [DecidableEq α] (seen : List α) : List α → List α
  | [] => []
  | a :: t => if a ∈ seen then dedupFirstAux seen t else a :: dedupFirstAux (a :: seen) t

/-- First-occurrence deduplication: the semantics of pandas
`Series.unique()` (used for the `Line Item` aggregation) and, up to row
order, of the distinct group keys of `groupby`.  (pandas sorts group keys;
key order never affects row multiplicity or row contents, which is all the
claims speak about, so the model keeps first-occurrence order.) -/
def dedupFirst {α : Type} [DecidableEq α] (l : List α) : List α :=
  dedupFirstAux [] l

/-- Sum of the numeric entries of a column slice: `groupby(...).agg('sum')`
on a numeric column skips NaN and sums the rest (an all-missing group sums
to 0). -/
def sumNums (vs : List Value) : ℚ :=
  (vs.filterMap (fun v => match v with | Value.num q => some q | _ => none)).sum

/-- One aggregated items row for customer key `k`: the source sums `Price`
and `Quantity` and comma-joins the distinct `Line Item` labels, then
renames the columns to
`['Customer Email', 'Total_Items_Price', 'Total_Items_Qty', 'Items_Sold']`. -/
def aggRow (rows : List Record) (k : Value) : Record :=
  let g := rows.filter (fun r => r.get "Customer Email" == k)
  [("Customer Email", k),
   ("Total_Items_Price", Value.num (sumNums (g.map (fun r => r.get "Price")))),
   ("Total_Items_Qty", Value.num (sumNums (g.map (fun r => r.get "Quantity")))),
   ("Items_Sold", Value.str (String.intercalate ", "
      (dedupFirst (g.filterMap (fun r =>
        match r.get "Line Item" with | Value.str s => some s | _ => none)))))]

/-- The cell is numeric or missing (summable by `agg('sum')` without type
surprises). -/
def numOrNa : Value → Bool
  | .str _ => false
  | _ => true

/-- The items-sold aggregation of `merge_data` (src/app.py:145-150):
group the items table by `Customer Email` (pandas drops rows whose group
key is NaN), sum `Price` and `Quantity`, comma-join distinct `Line Item`
labels.  `none` models the exceptions the `try` in `merge_data` catches:
a missing `Price`/`Quantity`/`Line Item` column (`KeyError`), or a
non-string `Line Item` (the `', '.join` raises `TypeError`).  Rows with a
string `Price`/`Quantity` are also modelled as the failure outcome: with
mixed types pandas' sum raises, and the all-string corner (where pandas
would concatenate) is not exercised by any claim. -/
def aggregate_items (items : Table) : Option Table :=
  if "Price" ∈ items.cols ∧ "Quantity" ∈ items.cols ∧ "Line Item" ∈ items.cols then
    let rows := items.rows.filter (fun r => (r.get "Customer Email").notna)
    if rows.all (fun r =>
        numOrNa (r.get "Price") && numOrNa (r.get "Quantity") && (r.get "Line Item").isStr) then
      some { cols := ["Customer Email", "Total_Items_Price", "Total_Items_Qty", "Items_Sold"],
             rows := (dedupFirst (rows.map (fun r => r.get "Customer Email"))).map (aggRow rows) }
    else none
  else none

/-- Output column names of a left merge: the left columns (a non-key
collision gets the left suffix), then the right non-key columns (a
collision gets the right suffix) — pandas `suffixes=(sl, sr)`. -/
def mergedCols (lcols rcols : List String) (key sl sr : String) : List String :=
  lcols.map (fun c => if c ≠ key ∧ c ∈ rcols then c ++ sl else c)
    ++ (rcols.filter (fun c => c ≠ key)).map (fun c => if c ∈ lcols then c ++ sr else c)

/-- The left row's contribution to a merged row (columns renamed as in
`mergedCols`). -/
def leftPart (lcols rcols : List String) (key sl _sr : String) (lr : Record) : Record :=
  lcols.map (fun c => (if c ≠ key ∧ c ∈ rcols then c ++ sl else c, lr.get c))

/-- A fully matched merged row: left part plus the right row's non-key
columns. -/
def mergeRow (lcols rcols : List String) (key sl sr : String) (lr rr : Record) : Record :=
  leftPart lcols rcols key sl sr lr
    ++ (rcols.filter (fun c => c ≠ key)).map
        (fun c => (if c ∈ lcols then c ++ sr else c, rr.get c))

/-- Row production of `pd.merge(..., how='left')`: every left row yields
one merged row per matching right row, or a single row (right columns
missing) when nothing matches.  pandas matches merge keys by equality with
NaN equal to NaN, which is plain `Value` equality. -/
def leftMergeRows (rt : Table) (key sl sr : String) (lcols : List String) :
    List Record → List Record
  | [] => []
  | lr :: rest =>
    (let ms := rt.rows.filter (fun rr => lr.get key == rr.get key)
     if ms.isEmpty then [leftPart lcols rt.cols key sl sr lr]
     else ms.map (mergeRow lcols rt.cols key sl sr lr))
      ++ leftMergeRows rt key sl sr lcols rest

/-- `pd.merge(lt, rt, on=[key], how='left', suffixes=(sl, sr))`. -/
def leftMerge (lt rt : Table) (key sl sr : String) : Table :=
  { cols := mergedCols lt.cols rt.cols key sl sr,
    rows := leftMergeRows rt key sl sr lt.cols lt.rows }

/-- Join-key probing for the job-times merge (src/app.py:124-128): prefer
`Job` when both sides have it, else `Job ID`, else no join. -/
def resolveJobKey (mcols : List String) (jt : Table) : Option String :=
  if "Job" ∈ mcols ∧ "Job" ∈ jt.cols then some "Job"
  else if "Job ID" ∈ mcols ∧ "Job ID" ∈ jt.cols then some "Job ID"
  else none

/-- The job-times step of `merge_data` (src/app.py:121-131). -/
def mergeJobTimes (base : Table) : Option Table → Table
  | none => base
  | some jt =>
    match resolveJobKey base.cols jt with
    | some k => leftMerge base jt k "" "_job"
    | none => base

/-- The opportunities step of `merge_data` (src/app.py:133-140): only the
`Job` key is probed. -/
def mergeOpportunities (m1 : Table) : Option Table → Table
  | none => m1
  | some op =>
    if "Job" ∈ m1.cols ∧ "Job" ∈ op.cols then leftMerge m1 op "Job" "" "_opp" else m1

/-- The items step of `merge_data` (src/app.py:142-151): aggregate, then
left-merge on `Customer Email` (this `pd.merge` call passes no suffixes, so
pandas' defaults `('_x', '_y')` apply).  A failing aggregation aborts the
whole merge (`none`). -/
def mergeItems (m2 : Table) : Option Table → Option Table
  | none => some m2
  | some it =>
    if "Customer Email" ∈ m2.cols ∧ "Customer Email" ∈ it.cols then
      match aggregate_items it with
      | none => none
      | some items_agg => some (leftMerge m2 items_agg "Customer Email" "_x" "_y")
    else some m2

/-- `ServiceDashboard.merge_data` (src/app.py:114-161): appointments are
the mandatory base (`none` without them), then job times, opportunities
and aggregated items are left-joined in that order. -/
def merge_data (appointments job_times opportunities items_sold : Option Table) : Option Table :=
  match appointments with
  | none => none
  | some base =>
    mergeItems (mergeOpportunities (mergeJobTimes base job_times) opportunities) items_sold

/-! ## The ThresholdFormatter (`ServiceDashboard.create_progress_bar_html`,
src/app.py:486-529) -/

/-- Splits a reversed digit list into groups of three (low-order first),
for thousands separators. -/
def chunk3 : List Char → List (List Char)
  | [] => []
  | [a] => [[a]]
  | [a, b] => [[a, b]]
  | a :: b :: c :: t => [a, b, c] :: chunk3 t

/-- `n` rendered with thousands separators, as in Python's `,` format
flag. -/
def commaSep (n : ℕ) : String :=
  String.intercalate "," (((chunk3 (toString n).data.reverse).map
    (fun g => String.mk g.reverse)).reverse)

/-- Left-pads a digit string with zeros to width `d`. -/
def padZeros (d : ℕ) (s : String) : String :=
  if s.length < d then String.mk (List.replicate (d - s.length) '0') ++ s else s

/-- Python fixed-point formatting `f"{q:.df}"` (with `comma` the `,` flag)
over exact rationals, rounding to `d` decimals.  Python rounds the nearest
binary double half-to-even; on inputs exactly representable at `d`
decimals — all the values this program formats in the claims — the two
agree.  (Python also renders a negative zero, which no claim touches.) -/
def fmtFixed (q : ℚ) (d : ℕ) (comma : Bool) : String :=
  let n : ℤ := round (q * (10 : ℚ) ^ d)
  let m : ℕ := n.natAbs
  let intPart : ℕ := m / 10 ^ d
  let fracPart : ℕ := m % 10 ^ d
  let sign : String := if n < 0 then "-" else ""
  let ip : String := if comma then commaSep intPart else toString intPart
  if d = 0 then sign ++ ip else sign ++ ip ++ "." ++ padZeros d (toString fracPart)

/-- The data of one rendered progress bar (the HTML around it is
presentation only): the computed progress percentage, the tier's color and
icon, and the formatted value/goal strings. -/
structure ProgressBar where
  label : String
  progress : ℚ
  color : String
  icon : String
  value_str : String
  goal_str : String
deriving DecidableEq, Repr

/-- `ServiceDashboard.create_progress_bar_html` (src/app.py:486-529):
progress is `0` when the goal is `0`, else `min(value/goal*100, 100)`;
the color/icon tier is chosen by first match in descending order
(`>= 100`, `>= 80`, `>= 60`, else); `format_type` controls only the
rendered strings. -/
def create_progress_bar_html (value goal : ℚ) (label : String) (format_type : String) : ProgressBar :=
  let progress_percent : ℚ := if goal = 0 then 0 else min (value / goal * 100) 100
  let ci : String × String :=
    if progress_percent ≥ 100 then ("#4CAF50", "✓")
    else if progress_percent ≥ 80 then ("#2196F3", "●")
    else if progress_percent ≥ 60 then ("#FF9800", "▲")
    else ("#F44336", "▼")
  let vg : String × String :=
    if format_type = "currency" then
      ("$" ++ fmtFixed value 2 true, "$" ++ fmtFixed goal 0 true)
    else if format_type = "percentage" then
      (fmtFixed value 1 false ++ "%", fmtFixed goal 0 false ++ "%")
    else
      (fmtFixed value 0 true, fmtFixed goal 0 true)
  { label := label, progress := progress_percent, color := ci.1, icon := ci.2,
    value_str := vg.1, goal_str := vg.2 }

/-- The spec's tier names, by first match on the progress value in
descending order. -/
def specTier (progress : ℚ) : String :=
  if progress ≥ 100 then "on-target"
  else if progress ≥ 80 then "near-target"
  else if progress ≥ 60 then "below-target"
  else "off-target"

/-- The fixed color and icon the source attaches to each tier. -/
def tierStyle (tier : String) : String × String :=
  if tier = "on-target" then ("#4CAF50", "✓")
  else if tier = "near-target" then ("#2196F3", "●")
  else if tier = "below-target" then ("#FF9800", "▲")
  else ("#F44336", "▼")

/-! ## Predicates and concrete tables used by the claim theorems -/

/-- The values of `f` are pairwise distinct across the rows. -/
def pairwiseNeOn (f : Record → Value) : List Record → Bool
  | [] => true
  | r :: t => t.all (fun r' => f r != f r') && pairwiseNeOn f t

/-- Column `c` of table `t` holds pairwise-distinct values (NaN counted as
one value, as pandas merge keys treat it). -/
def uniqueKeys (t : Table) (c : String) : Prop :=
  pairwiseNeOn (fun r => r.get c) t.rows = true

instance uniqueKeysDecidable (t : Table) (c : String) : Decidable (uniqueKeys t c) :=
  inferInstanceAs (Decidable (pairwiseNeOn (fun r => r.get c) t.rows = true))

/-- Modelled from the claim under test (not from the source): the
compliance ratio with unparsable efficiency values excluded from both the
numerator and the denominator, for comparison with
`calculate_compliance_rate`. -/
def complianceRate_specParsable (t : Table) : ℚ :=
  let completed := t.rows.filter (fun r => valEq (r.get "Appt Status") (Value.str "Completed"))
  let parsable := completed.filter (fun r => effParses (r.get "Job Efficiency"))
  let compliant := completed.filter (fun r => effGE80 (r.get "Job Efficiency"))
  if 0 < parsable.length then 100 * (compliant.length : ℚ) / (parsable.length : ℚ) else 0

/-- Modelled from the claim under test (not from the source): the
membership win rate counting a row when its items text OR its
service-category text contains "membership", for comparison with
`calculate_membership_win_rate`. -/
def membershipWinRate_specOr (t : Table) : ℚ :=
  if 0 < t.rows.length then
    ((t.rows.filter (fun r =>
        containsCI (r.get "Items_Sold") "membership"
          || containsCI (r.get "Service Category") "membership")).length : ℚ)
      / (t.rows.length : ℚ) * 100
  else 0

/-- One-row appointments base for the C1 counterexample. -/
def c1Base : Table := ⟨["Job"], [[("Job", Value.num 1)]]⟩

/-- Job-times table with a duplicated `Job` key: the left join fans out. -/
def c1Times : Table :=
  ⟨["Job", "Job Efficiency"],
   [[("Job", Value.num 1), ("Job Efficiency", Value.num 50)],
    [("Job", Value.num 1), ("Job Efficiency", Value.num 60)]]⟩

/-- Two-row appointments base for the C1 witness. -/
def c1wBase : Table :=
  ⟨["Job", "Revenue"],
   [[("Job", Value.num 1), ("Revenue", Value.num 100)],
    [("Job", Value.num 2), ("Revenue", Value.num 250)]]⟩

/-- Two-row job-times table with distinct `Job` keys and no `Job ID`
column for the C1 witness (the ordinary shape: only the key actually used
for the join needs distinct values). -/
def c1wTimes : Table :=
  ⟨["Job", "Job Efficiency"],
   [[("Job", Value.num 1), ("Job Efficiency", Value.num 90)],
    [("Job", Value.num 2), ("Job Efficiency", Value.num 75)]]⟩

/-- Two-row opportunities table with distinct `Job` keys for the C1
witness. -/
def c1wOpps : Table :=
  ⟨["Job", "Opportunity Owner"],
   [[("Job", Value.num 1), ("Opportunity Owner", Value.str "Ann")],
    [("Job", Value.num 2), ("Opportunity Owner", Value.str "Ben")]]⟩

/-- The merged table of the C1 witness inputs. -/
def c1wMerged : Table :=
  (merge_data (some c1wBase) (some c1wTimes) (some c1wOpps) none).getD ⟨[], []⟩

/-- Two completed rows, one parsable efficiency, one unparsable (C4). -/
def c4Table : Table :=
  ⟨["Appt Status", "Job Efficiency"],
   [[("Appt Status", Value.str "Completed"), ("Job Efficiency", Value.str "90%")],
    [("Appt Status", Value.str "Completed"), ("Job Efficiency", Value.str "oops")]]⟩

/-- A row whose membership evidence sits only in `Service Category` while
an `Items_Sold` column is present (C5). -/
def c5Table : Table :=
  ⟨["Items_Sold", "Service Category"],
   [[("Items_Sold", Value.str "Widget"), ("Service Category", Value.str "Membership Plan")]]⟩

/-- The items table of the spec's aggregation example (C8). -/
def c8Input : Table :=
  ⟨["Customer Email", "Line Item", "Price", "Quantity"],
   [[("Customer Email", Value.str "a@x.com"), ("Line Item", Value.str "A"),
     ("Price", Value.num 10), ("Quantity", Value.num 1)],
    [("Customer Email", Value.str "a@x.com"), ("Line Item", Value.str "B"),
     ("Price", Value.num 20), ("Quantity", Value.num 2)]]⟩

/-- The aggregated row the spec's example expects (C8). -/
def c8Expected : Table :=
  ⟨["Customer Email", "Total_Items_Price", "Total_Items_Qty", "Items_Sold"],
   [[("Customer Email", Value.str "a@x.com"),
     ("Total_Items_Price", Value.num 30),
     ("Total_Items_Qty", Value.num 3),
     ("Items_Sold", Value.str "A, B")]]⟩

/-! ## Helper lemmas -/

theorem mem_dedupFirstAux {α : Type} [DecidableEq α] :
    ∀ (t seen : List α) (b : α), b ∈ dedupFirstAux seen t → b ∉ seen := by
  intro t
  induction t with
  | nil => intro seen b h; simp [dedupFirstAux] at h
  | cons a t ih =>
    intro seen b h
    by_cases ha : a ∈ seen
    · rw [dedupFirstAux, if_pos ha] at h
      exact ih seen b h
    · rw [dedupFirstAux, if_neg ha] at h
      rcases List.mem_cons.mp h with hb | hb
      · subst hb; exact ha
      · intro hbs
        exact ih (a :: seen) b hb (List.mem_cons_of_mem a hbs)

theorem dedupFirstAux_pairwise {α : Type} [DecidableEq α] :
    ∀ (t seen : List α), (dedupFirstAux seen t).Pairwise (fun a b => a ≠ b) := by
  intro t
  induction t with
  | nil => intro seen; simp [dedupFirstAux]
  | cons a t ih =>
    intro seen
    by_cases ha : a ∈ seen
    · rw [dedupFirstAux, if_pos ha]; exact ih seen
    · rw [dedupFirstAux, if_neg ha]
      refine List.Pairwise.cons ?_ (ih (a :: seen))
      intro b hb
      have hns := mem_dedupFirstAux t (a :: seen) b hb
      intro hab
      exact hns (hab ▸ List.mem_cons_self a seen)

theorem dedupFirst_pairwise {α : Type} [DecidableEq α] (l : List α) :
    (dedupFirst l).Pairwise (fun a b => a ≠ b) :=
  dedupFirstAux_pairwise l []

theorem effGE80_parses (v : Value) (h : effGE80 v = true) : effParses v = true := by
  unfold effGE80 at h
  unfold effParses
  cases hv : effParse? v with
  | none => rw [hv] at h; exact absurd h (by simp)
  | some q => simp

theorem effGE80_notna (v : Value) (h : effGE80 v = true) : v.notna = true := by
  cases v with
  | na => simp [effGE80, effParse?] at h
  | num q => rfl
  | str s => rfl

theorem ratio100_bounds (a b : ℕ) (h : a ≤ b) :
    0 ≤ (a : ℚ) / (b : ℚ) * 100 ∧ (a : ℚ) / (b : ℚ) * 100 ≤ 100 := by
  rcases Nat.eq_zero_or_pos b with hb | hb
  · subst hb
    have ha : a = 0 := Nat.le_zero.mp h
    subst ha
    norm_num
  · have hb' : (0 : ℚ) < (b : ℚ) := by exact_mod_cast hb
    constructor
    · positivity
    · have hle : (a : ℚ) / (b : ℚ) ≤ 1 := by
        rw [div_le_one hb']
        exact_mod_cast h
      calc (a : ℚ) / (b : ℚ) * 100 ≤ 1 * 100 :=
            mul_le_mul_of_nonneg_right hle (by norm_num)
        _ = 100 := by norm_num

theorem length_filter_key_le_one (f : Record → Value) (v : Value) :
    ∀ rs : List Record, pairwiseNeOn f rs = true →
      (rs.filter (fun rr => v == f rr)).length ≤ 1 := by
  intro rs
  induction rs with
  | nil => intro _; simp
  | cons a t ih =>
    intro h
    rw [pairwiseNeOn, Bool.and_eq_true] at h
    obtain ⟨h1, h2⟩ := h
    by_cases hv : v = f a
    · rw [List.filter_cons_of_pos (by simp [hv])]
      have hnil : t.filter (fun rr => v == f rr) = [] := by
        rw [List.filter_eq_nil_iff]
        intro b hb
        have := List.all_eq_true.mp h1 b hb
        simp only [bne_iff_ne, ne_eq] at this
        simp only [beq_iff_eq]
        intro hvb
        exact this (hv ▸ hvb)
      simp [hnil]
    · rw [List.filter_cons_of_neg (by simp [hv])]
      exact ih h2

theorem leftMergeRows_length (rt : Table) (key sl sr : String) (lcols : List String)
    (h : pairwiseNeOn (fun r => r.get key) rt.rows = true) :
    ∀ ls : List Record, (leftMergeRows rt key sl sr lcols ls).length = ls.length := by
  intro ls
  induction ls with
  | nil => rfl
  | cons lr rest ih =>
    simp only [leftMergeRows, List.length_append, ih, List.length_cons]
    split
    · simp only [List.length_singleton]
      omega
    · next hms =>
      rw [List.length_map]
      have hle : (rt.rows.filter (fun rr => lr.get key == rr.get key)).length ≤ 1 :=
        length_filter_key_le_one (fun r => r.get key) (lr.get key) rt.rows h
      have hpos : 0 < (rt.rows.filter (fun rr => lr.get key == rr.get key)).length := by
        rcases Nat.eq_zero_or_pos (rt.rows.filter (fun rr => lr.get key == rr.get key)).length
          with h0 | hp
        · exact absurd (List.isEmpty_iff_length_eq_zero.mpr h0) hms
        · exact hp
      omega

theorem leftMerge_rows_length (lt rt : Table) (key sl sr : String) (h : uniqueKeys rt key) :
    (leftMerge lt rt key sl sr).rows.length = lt.rows.length :=
  leftMergeRows_length rt key sl sr lt.cols h lt.rows

theorem aggRow_key (rows : List Record) (k : Value) :
    (aggRow rows k).get "Customer Email" = k := rfl

theorem pairwiseNeOn_map (f : Record → Value) (g : Value → Record)
    (hfg : ∀ k, f (g k) = k) :
    ∀ ks : List Value, ks.Pairwise (fun a b => a ≠ b) →
      pairwiseNeOn f (ks.map g) = true := by
  intro ks
  induction ks with
  | nil => intro _; rfl
  | cons a t ih =>
    intro h
    rcases List.pairwise_cons.mp h with ⟨h1, h2⟩
    rw [List.map_cons, pairwiseNeOn, Bool.and_eq_true]
    refine ⟨?_, ih h2⟩
    rw [List.all_eq_true]
    intro b hb
    rcases List.mem_map.mp hb with ⟨k, hk, hgk⟩
    subst hgk
    simp only [hfg, bne_iff_ne, ne_eq]
    exact h1 k hk

theorem aggregate_items_uniqueKeys (it t : Table)
    (h : aggregate_items it = some t) : uniqueKeys t "Customer Email" := by
  simp only [aggregate_items] at h
  split_ifs at h with h1 h2
  rw [Option.some.injEq] at h
  subst h
  exact pairwiseNeOn_map _ _ (aggRow_key _) _ (dedupFirst_pairwise _)

theorem mergeJobTimes_length (base : Table) (jt? : Option Table)
    (h : ∀ jt ∈ jt?, ∀ k, resolveJobKey base.cols jt = some k → uniqueKeys jt k) :
    (mergeJobTimes base jt?).rows.length = base.rows.length := by
  cases jt? with
  | none => rfl
  | some jt =>
    rw [mergeJobTimes]
    rcases hk : resolveJobKey base.cols jt with _ | k
    · rfl
    · exact leftMerge_rows_length base jt k "" "_job" (h jt rfl k hk)

theorem mergeOpportunities_length (m1 : Table) (op? : Option Table)
    (h : ∀ op ∈ op?, "Job" ∈ m1.cols → "Job" ∈ op.cols → uniqueKeys op "Job") :
    (mergeOpportunities m1 op?).rows.length = m1.rows.length := by
  cases op? with
  | none => rfl
  | some op =>
    rw [mergeOpportunities]
    split_ifs with hc
    · exact leftMerge_rows_length m1 op "Job" "" "_opp" (h op rfl hc.1 hc.2)
    · rfl

theorem mergeItems_length (m2 : Table) (it? : Option Table) (r : Table)
    (hr : mergeItems m2 it? = some r) : r.rows.length = m2.rows.length := by
  cases it? with
  | none =>
    rw [mergeItems, Option.some.injEq] at hr
    subst hr; rfl
  | some it =>
    rw [mergeItems] at hr
    split_ifs at hr with hc
    · rcases ha : aggregate_items it with _ | agg
      · rw [ha] at hr; exact absurd hr (by simp)
      · rw [ha, Option.some.injEq] at hr
        subst hr
        exact leftMerge_rows_length m2 agg "Customer Email" "_x" "_y"
          (aggregate_items_uniqueKeys it agg ha)
    · rw [Option.some.injEq] at hr
      subst hr; rfl

/-! ## Claim theorems -/

/-- C1 counterexample: the claim says the merged table always has exactly
as many records as the appointments base, but a job-times source with a
duplicated `Job` key fans the one-row base out to two rows. -/
theorem c1_counterexample :
    (merge_data (some c1Base) (some c1Times) none none).map (fun t => t.rows.length) = some 2
    ∧ c1Base.rows.length = 1 ∧ (2 : ℕ) ≠ 1 := by
  decide

/-- C1 (amended): the merged table has exactly as many records as the base
whenever the join-key column actually selected for the time join carries
pairwise-distinct values, and — when the opportunities join applies (both
sides have `Job`) — the opportunities `Job` column carries pairwise-distinct
values.  A source lacking a candidate key column, or whose join is skipped,
needs nothing; the items source needs no condition at all, because its
pre-join aggregation leaves at most one row per customer key.  In
particular, with no optional sources the base cardinality is preserved. -/
theorem c1_merge_preserves_base_len
    (base : Table) (job_times opportunities items_sold : Option Table)
    (hjt : ∀ jt ∈ job_times, ∀ k, resolveJobKey base.cols jt = some k → uniqueKeys jt k)
    (hop : ∀ op ∈ opportunities,
      "Job" ∈ (mergeJobTimes base job_times).cols → "Job" ∈ op.cols → uniqueKeys op "Job")
    (m : Table) (hm : merge_data (some base) job_times opportunities items_sold = some m) :
    m.rows.length = base.rows.length := by
  rw [merge_data] at hm
  rw [mergeItems_length _ items_sold m hm,
    mergeOpportunities_length _ opportunities hop,
    mergeJobTimes_length base job_times hjt]

/-- Witness for `c1_merge_preserves_base_len` at a two-row base, a two-row
job-times table with distinct `Job` keys and no `Job ID` column, and a
two-row opportunities table with distinct `Job` keys. -/
theorem c1_merge_preserves_base_len_witness :
    (∀ jt ∈ (some c1wTimes : Option Table), ∀ k,
       resolveJobKey c1wBase.cols jt = some k → uniqueKeys jt k)
    ∧ (∀ op ∈ (some c1wOpps : Option Table),
       "Job" ∈ (mergeJobTimes c1wBase (some c1wTimes)).cols → "Job" ∈ op.cols →
         uniqueKeys op "Job")
    ∧ merge_data (some c1wBase) (some c1wTimes) (some c1wOpps) none = some c1wMerged
    ∧ c1wMerged.rows.length = c1wBase.rows.length := by
  have hjt : ∀ jt ∈ (some c1wTimes : Option Table), ∀ k,
      resolveJobKey c1wBase.cols jt = some k → uniqueKeys jt k := by
    intro jt hj k hk
    rw [Option.mem_def, Option.some.injEq] at hj
    subst hj
    rw [show resolveJobKey c1wBase.cols c1wTimes = some "Job" from rfl,
      Option.some.injEq] at hk
    subst hk
    decide
  have hop : ∀ op ∈ (some c1wOpps : Option Table),
      "Job" ∈ (mergeJobTimes c1wBase (some c1wTimes)).cols → "Job" ∈ op.cols →
        uniqueKeys op "Job" := by
    intro op ho _ _
    rw [Option.mem_def, Option.some.injEq] at ho
    subst ho
    decide
  have hm : merge_data (some c1wBase) (some c1wTimes) (some c1wOpps) none = some c1wMerged := by
    decide
  exact ⟨hjt, hop, hm, c1_merge_preserves_base_len c1wBase _ _ _ hjt hop c1wMerged hm⟩

/-- C2 counterexample: on an empty table (which has no efficiency column),
`calculate_compliance_rate` returns 0, not the claimed default 95 — the 95
branch is only reachable when at least one completed record exists. -/
theorem c2_counterexample :
    calculate_compliance_rate ⟨[], []⟩ none = 0
    ∧ calculate_compliance_rate ⟨[], []⟩ none ≠ 95 := by
  decide

/-- C2 (amended): an empty table yields a compliance rate of 0; the fixed
"assumed compliant" default 95 is returned exactly on tables that have an
`Appt Status` column, at least one completed record, and no
`Job Efficiency` column. -/
theorem c2_compliance_default_amended :
    (∀ t : Table, t.rows = [] → calculate_compliance_rate t none = 0)
    ∧ (∀ t : Table, "Job Efficiency" ∉ t.cols → "Appt Status" ∈ t.cols →
        0 < (t.rows.filter (fun r => valEq (r.get "Appt Status") (Value.str "Completed"))).length →
        calculate_compliance_rate t none = 95) := by
  constructor
  · intro t ht
    simp [calculate_compliance_rate, applyTech, ht]
  · intro t hE hA hpos
    simp [calculate_compliance_rate, applyTech, hA, hE, hpos]

/-- Witness for `c2_compliance_default_amended`: the empty-rows part at a
table with an `Appt Status` column, and the 95 part at a one-row completed
table without an efficiency column. -/
theorem c2_compliance_default_amended_witness :
    calculate_compliance_rate ⟨["Appt Status"], []⟩ none = 0
    ∧ "Job Efficiency" ∉ (Table.mk ["Appt Status"] [[("Appt Status", Value.str "Completed")]]).cols
    ∧ "Appt Status" ∈ (Table.mk ["Appt Status"] [[("Appt Status", Value.str "Completed")]]).cols
    ∧ 0 < ((Table.mk ["Appt Status"] [[("Appt Status", Value.str "Completed")]]).rows.filter
        (fun r => valEq (r.get "Appt Status") (Value.str "Completed"))).length
    ∧ calculate_compliance_rate ⟨["Appt Status"], [[("Appt Status", Value.str "Completed")]]⟩ none = 95 :=
  ⟨c2_compliance_default_amended.1 ⟨["Appt Status"], []⟩ rfl,
   by decide, by decide, by decide,
   c2_compliance_default_amended.2 ⟨["Appt Status"], [[("Appt Status", Value.str "Completed")]]⟩
     (by decide) (by decide) (by decide)⟩

/-- C7: over an efficiency column holding the number 85, the string
`"90%"`, and the string `"not-a-number"`, the average-efficiency
calculator normalizes the two parsable values and returns their mean 87.5,
silently excluding the unparsable one. -/
theorem c7_avg_job_efficiency_mixed :
    calculate_avg_job_efficiency
      ⟨["Job Efficiency"],
       [[("Job Efficiency", Value.num 85)],
        [("Job Efficiency", Value.str "90%")],
        [("Job Efficiency", Value.str "not-a-number")]]⟩ none = 87.5 := by
  decide

/-- C8: the items aggregation turns the spec's two-row customer into the
single row `{price: 30, qty: 3, items: "A, B"}`, and any successful
aggregation leaves pairwise-distinct customer keys — at most one output
row per customer. -/
theorem c8_items_aggregation :
    aggregate_items c8Input = some c8Expected
    ∧ (∀ it t : Table, aggregate_items it = some t → uniqueKeys t "Customer Email") :=
  ⟨by decide, aggregate_items_uniqueKeys⟩

/-- Witness for `c8_items_aggregation` at the spec's concrete input. -/
theorem c8_items_aggregation_witness :
    aggregate_items c8Input = some c8Expected ∧ uniqueKeys c8Expected "Customer Email" :=
  ⟨by decide, c8_items_aggregation.2 c8Input c8Expected (by decide)⟩

/-- C3 counterexample: with no `Technician` column and an active filter,
the job-close-rate calculator returns the degraded 0 (the `KeyError` lands
in the broad `except`), not the unfiltered value 100 — the filter is not a
no-op. -/
theorem c3_counterexample :
    calculate_job_close_rate ⟨["Appt Status"], [[("Appt Status", Value.str "Completed")]]⟩
      (some "Bob") = 0
    ∧ calculate_job_close_rate ⟨["Appt Status"], [[("Appt Status", Value.str "Completed")]]⟩
      none = 100
    ∧ ((0 : ℚ) ≠ 100) := by
  decide

/-- C3 (amended): when the actor column is absent and a non-sentinel
filter is given, every calculator returns its degraded 0 fallback (the
column access raises and the broad `except` returns 0), not the value it
would return with no filter applied. -/
theorem c3_absent_actor_degrades_to_zero
    (t : Table) (s : String) (hcol : "Technician" ∉ t.cols) (h1 : s ≠ "") (h2 : s ≠ "All") :
    calculate_avg_ticket t (some s) = some 0
    ∧ calculate_job_close_rate t (some s) = 0
    ∧ calculate_avg_job_efficiency t (some s) = 0
    ∧ calculate_compliance_rate t (some s) = 0
    ∧ calculate_membership_win_rate t (some s) = 0
    ∧ calculate_kpi_hydro_jetting t (some s) = 0
    ∧ calculate_kpi_descaling t (some s) = 0
    ∧ calculate_on_time_arrival t (some s) = 0
    ∧ calculate_warranty_call_rate t (some s) = 0
    ∧ calculate_upsell_conversion t (some s) = 0 := by
  have h : applyTech t (some s) = none := by
    simp [applyTech, h1, h2, hcol]
  refine ⟨?_, ?_, ?_, ?_, ?_, ?_, ?_, ?_, ?_, ?_⟩ <;>
    simp [calculate_avg_ticket, calculate_job_close_rate, calculate_avg_job_efficiency,
      calculate_compliance_rate, calculate_membership_win_rate, calculate_kpi_hydro_jetting,
      calculate_kpi_descaling, calculate_on_time_arrival, calculate_warranty_call_rate,
      calculate_upsell_conversion, h]

/-- Witness for `c3_absent_actor_degrades_to_zero` at a concrete table
without a `Technician` column and the filter "Bob". -/
theorem c3_absent_actor_degrades_to_zero_witness :
    "Technician" ∉ (Table.mk ["Appt Status"] [[("Appt Status", Value.str "Completed")]]).cols
    ∧ "Bob" ≠ "" ∧ "Bob" ≠ "All"
    ∧ calculate_job_close_rate ⟨["Appt Status"], [[("Appt Status", Value.str "Completed")]]⟩
        (some "Bob") = 0 :=
  ⟨by decide, by decide, by decide,
   (c3_absent_actor_degrades_to_zero
     ⟨["Appt Status"], [[("Appt Status", Value.str "Completed")]]⟩ "Bob"
     (by decide) (by decide) (by decide)).2.1⟩

/-- C4 counterexample: over two completed rows with efficiencies `"90%"`
and the unparsable `"oops"`, the source divides by all completed rows and
returns 50, while the claim's parsable-only denominator gives 100. -/
theorem c4_counterexample :
    calculate_compliance_rate c4Table none = 50
    ∧ complianceRate_specParsable c4Table = 100
    ∧ calculate_compliance_rate c4Table none ≠ complianceRate_specParsable c4Table := by
  decide

/-- C4 (amended): when at least one completed record has a non-missing
efficiency value, the compliance rate equals 100 times the number of
completed records whose efficiency parses to at least 80, divided by the
count of ALL completed records — unparsable values are excluded only from
the numerator, not from the denominator. -/
theorem c4_compliance_denominator_amended
    (t : Table) (hA : "Appt Status" ∈ t.cols) (hE : "Job Efficiency" ∈ t.cols)
    (hg : 0 < ((t.rows.filter (fun r => valEq (r.get "Appt Status") (Value.str "Completed"))).filter
        (fun r => (r.get "Job Efficiency").notna)).length) :
    calculate_compliance_rate t none =
      (((t.rows.filter (fun r => valEq (r.get "Appt Status") (Value.str "Completed"))).countP
          (fun r => effGE80 (r.get "Job Efficiency"))) : ℚ)
        / (((t.rows.filter (fun r => valEq (r.get "Appt Status") (Value.str "Completed"))).length) : ℚ)
        * 100 := by
  have hkey : ∀ l : List Record,
      (l.filter (fun r => (r.get "Job Efficiency").notna)).filter
          (fun r => effGE80 (r.get "Job Efficiency"))
        = l.filter (fun r => effGE80 (r.get "Job Efficiency")) := by
    intro l
    induction l with
    | nil => rfl
    | cons a tl ih =>
      cases hg80 : effGE80 (a.get "Job Efficiency") with
      | true =>
        have hn := effGE80_notna _ hg80
        simp [List.filter_cons, hn, hg80, ih]
      | false =>
        by_cases hn : (a.get "Job Efficiency").notna = true <;>
          simp [List.filter_cons, hn, hg80, ih]
  have hcpos : 0 < (t.rows.filter
      (fun r => valEq (r.get "Appt Status") (Value.str "Completed"))).length :=
    lt_of_lt_of_le hg (List.length_filter_le _ _)
  simp only [calculate_compliance_rate, applyTech, hA, hE, hcpos, hg, if_true]
  rw [hkey, List.countP_eq_length_filter]

/-- Witness for `c4_compliance_denominator_amended` at the two-row
completed table `c4Table`. -/
theorem c4_compliance_denominator_amended_witness :
    "Appt Status" ∈ c4Table.cols
    ∧ "Job Efficiency" ∈ c4Table.cols
    ∧ 0 < ((c4Table.rows.filter (fun r => valEq (r.get "Appt Status") (Value.str "Completed"))).filter
        (fun r => (r.get "Job Efficiency").notna)).length
    ∧ calculate_compliance_rate c4Table none =
        (((c4Table.rows.filter (fun r => valEq (r.get "Appt Status") (Value.str "Completed"))).countP
            (fun r => effGE80 (r.get "Job Efficiency"))) : ℚ)
          / (((c4Table.rows.filter (fun r => valEq (r.get "Appt Status") (Value.str "Completed"))).length) : ℚ)
          * 100 :=
  ⟨by decide, by decide, by decide,
   c4_compliance_denominator_amended c4Table (by decide) (by decide) (by decide)⟩

/-- C5 counterexample: a row whose service-category text contains
"membership" but whose items text does not, in a table where the
`Items_Sold` column exists, is not counted: the source checks
`Service Category` only in the `elif` branch, never as an OR. -/
theorem c5_counterexample :
    calculate_membership_win_rate c5Table none = 0
    ∧ membershipWinRate_specOr c5Table = 100
    ∧ calculate_membership_win_rate c5Table none ≠ membershipWinRate_specOr c5Table := by
  decide

/-- C5 (amended): for a non-empty table, the membership win rate counts
matches in `Items_Sold` when that column exists, otherwise matches in
`Service Category`, otherwise 0 — never the OR of the two columns. -/
theorem c5_membership_priority_amended (t : Table) (h : t.rows ≠ []) :
    calculate_membership_win_rate t none =
      (if "Items_Sold" ∈ t.cols then
        ((t.rows.filter (fun r => containsCI (r.get "Items_Sold") "membership")).length : ℚ)
      else if "Service Category" ∈ t.cols then
        ((t.rows.filter (fun r => containsCI (r.get "Service Category") "membership")).length : ℚ)
      else 0) / (t.rows.length : ℚ) * 100 := by
  have hpos : 0 < t.rows.length := List.length_pos.mpr h
  simp only [calculate_membership_win_rate, applyTech, hpos, if_true]
  split_ifs <;> simp

/-- Witness for `c5_membership_priority_amended` at `c5Table`. -/
theorem c5_membership_priority_amended_witness :
    c5Table.rows ≠ []
    ∧ calculate_membership_win_rate c5Table none =
        (if "Items_Sold" ∈ c5Table.cols then
          ((c5Table.rows.filter (fun r => containsCI (r.get "Items_Sold") "membership")).length : ℚ)
        else if "Service Category" ∈ c5Table.cols then
          ((c5Table.rows.filter (fun r => containsCI (r.get "Service Category") "membership")).length : ℚ)
        else 0) / (c5Table.rows.length : ℚ) * 100 :=
  ⟨by decide, c5_membership_priority_amended c5Table (by decide)⟩

theorem tierStyle_specTier (p : ℚ) :
    tierStyle (specTier p) =
      (if p ≥ 100 then ("#4CAF50", "✓")
       else if p ≥ 80 then ("#2196F3", "●")
       else if p ≥ 60 then ("#FF9800", "▲")
       else ("#F44336", "▼")) := by
  by_cases h1 : p ≥ 100
  · simp [specTier, tierStyle, h1]
  · by_cases h2 : p ≥ 80
    · simp [specTier, tierStyle, h1, h2]
    · by_cases h3 : p ≥ 60
      · simp [specTier, tierStyle, h1, h2, h3]
      · simp [specTier, tierStyle, h1, h2, h3]

/-- C6: for every value, goal and format kind, the progress-bar formatter
computes `progress = 0` when the goal is 0 and `min(value/goal*100, 100)`
otherwise, and colors the bar by first matching tier in descending order
(on-target at 100, near-target at 80, below-target at 60, off-target
below); at value 82 against goal 80 with the percentage format it lands
on-target with display string "82.0%". -/
theorem c6_threshold_formatter :
    (∀ (value goal : ℚ) (label format_type : String),
      (create_progress_bar_html value goal label format_type).progress
          = (if goal = 0 then 0 else min (value / goal * 100) 100)
        ∧ ((create_progress_bar_html value goal label format_type).color,
            (create_progress_bar_html value goal label format_type).icon)
          = tierStyle (specTier (create_progress_bar_html value goal label format_type).progress))
    ∧ specTier (create_progress_bar_html 82 80 "Compliance" "percentage").progress = "on-target"
    ∧ (create_progress_bar_html 82 80 "Compliance" "percentage").value_str = "82.0%" := by
  refine ⟨?_, by decide, by decide⟩
  intro value goal label format_type
  refine ⟨rfl, ?_⟩
  rw [tierStyle_specTier]
  rfl

theorem job_close_rate_bounds (df : Table) (tech : Option String) :
    0 ≤ calculate_job_close_rate df tech ∧ calculate_job_close_rate df tech ≤ 100 := by
  rcases happ : applyTech df tech with _ | d <;> simp only [calculate_job_close_rate, happ]
  · norm_num
  · split_ifs
    · exact ratio100_bounds _ _ (List.length_filter_le _ _)
    · norm_num
    · norm_num

theorem compliance_rate_bounds (df : Table) (tech : Option String) :
    0 ≤ calculate_compliance_rate df tech ∧ calculate_compliance_rate df tech ≤ 100 := by
  rcases happ : applyTech df tech with _ | d <;> simp only [calculate_compliance_rate, happ]
  · norm_num
  · split_ifs
    · exact ratio100_bounds _ _
        (le_trans (List.length_filter_le _ _) (List.length_filter_le _ _))
    · norm_num
    · norm_num
    · norm_num
    · norm_num

theorem membership_win_rate_bounds (df : Table) (tech : Option String) :
    0 ≤ calculate_membership_win_rate df tech ∧ calculate_membership_win_rate df tech ≤ 100 := by
  rcases happ : applyTech df tech with _ | d <;> simp only [calculate_membership_win_rate, happ]
  · norm_num
  · split_ifs <;>
      first
        | exact ratio100_bounds _ _ (List.length_filter_le _ _)
        | exact ratio100_bounds _ _ (Nat.zero_le _)
        | norm_num

theorem on_time_arrival_bounds (df : Table) (tech : Option String) :
    0 ≤ calculate_on_time_arrival df tech ∧ calculate_on_time_arrival df tech ≤ 100 := by
  rcases happ : applyTech df tech with _ | d <;> simp only [calculate_on_time_arrival, happ]
  · norm_num
  · have hmono :
        ((d.rows.map (fun r => r.get "Job Efficiency")).filter effGE80).length ≤
          ((d.rows.map (fun r => r.get "Job Efficiency")).filter effParses).length := by
      rw [← List.countP_eq_length_filter, ← List.countP_eq_length_filter]
      exact List.countP_mono_left (fun v _ hv => effGE80_parses v hv)
    split_ifs <;>
      first
        | exact ratio100_bounds _ _ hmono
        | exact ratio100_bounds _ _ (List.length_filter_le _ _)
        | norm_num

theorem warranty_call_rate_bounds (df : Table) (tech : Option String) :
    0 ≤ calculate_warranty_call_rate df tech ∧ calculate_warranty_call_rate df tech ≤ 100 := by
  rcases happ : applyTech df tech with _ | d <;> simp only [calculate_warranty_call_rate, happ]
  · norm_num
  · split_ifs <;>
      first
        | exact ratio100_bounds _ _ (List.length_filter_le _ _)
        | exact ratio100_bounds _ _ (Nat.zero_le _)
        | norm_num

theorem upsell_conversion_bounds (df : Table) (tech : Option String) :
    0 ≤ calculate_upsell_conversion df tech ∧ calculate_upsell_conversion df tech ≤ 100 := by
  rcases happ : applyTech df tech with _ | d <;> simp only [calculate_upsell_conversion, happ]
  · norm_num
  · rcases hm : pandasMean (d.rows.map (fun r => r.get "Revenue")) with _ | avg <;>
      simp only [hm] <;>
      split_ifs <;>
      first
        | exact ratio100_bounds _ _ (List.length_filter_le _ _)
        | norm_num

/-- C9 counterexample: `AverageJobEfficiency` is an unbounded mean — a
single efficiency value of 150 yields a KPI of 150, outside [0, 100]. -/
theorem c9_counterexample :
    calculate_avg_job_efficiency
      ⟨["Job Efficiency"], [[("Job Efficiency", Value.num 150)]]⟩ none = 150
    ∧ ¬(calculate_avg_job_efficiency
        ⟨["Job Efficiency"], [[("Job Efficiency", Value.num 150)]]⟩ none ≤ 100) := by
  decide

/-- C9 (amended): for every table and every actor filter, each of
JobCloseRate, ComplianceRate, MembershipWinRate, OnTimeArrivalRate,
WarrantyCallRate and UpsellConversionRate lies in [0, 100];
AverageJobEfficiency does not belong on that list — it is the raw mean of
the parsed efficiency values and follows them outside [0, 100]. -/
theorem c9_percentage_kpis_bounded (df : Table) (technician : Option String) :
    (0 ≤ calculate_job_close_rate df technician ∧ calculate_job_close_rate df technician ≤ 100)
    ∧ (0 ≤ calculate_compliance_rate df technician ∧ calculate_compliance_rate df technician ≤ 100)
    ∧ (0 ≤ calculate_membership_win_rate df technician ∧ calculate_membership_win_rate df technician ≤ 100)
    ∧ (0 ≤ calculate_on_time_arrival df technician ∧ calculate_on_time_arrival df technician ≤ 100)
    ∧ (0 ≤ calculate_warranty_call_rate df technician ∧ calculate_warranty_call_rate df technician ≤ 100)
    ∧ (0 ≤ calculate_upsell_conversion df technician ∧ calculate_upsell_conversion df technician ≤ 100) :=
  ⟨job_close_rate_bounds df technician, compliance_rate_bounds df technician,
   membership_win_rate_bounds df technician, on_time_arrival_bounds df technician,
   warranty_call_rate_bounds df technician, upsell_conversion_bounds df technician⟩

/-- C10: the empty-string filter is falsy in Python, so every calculator
treats it — like the documented sentinels `None` and `'All'` — as "no
restriction": the result equals the unfiltered result. -/
theorem c10_sentinel_filters_no_op (t : Table) :
    (calculate_avg_ticket t (some "") = calculate_avg_ticket t none
      ∧ calculate_avg_ticket t (some "All") = calculate_avg_ticket t none)
    ∧ (calculate_job_close_rate t (some "") = calculate_job_close_rate t none
      ∧ calculate_job_close_rate t (some "All") = calculate_job_close_rate t none)
    ∧ (calculate_avg_job_efficiency t (some "") = calculate_avg_job_efficiency t none
      ∧ calculate_avg_job_efficiency t (some "All") = calculate_avg_job_efficiency t none)
    ∧ (calculate_compliance_rate t (some "") = calculate_compliance_rate t none
      ∧ calculate_compliance_rate t (some "All") = calculate_compliance_rate t none)
    ∧ (calculate_membership_win_rate t (some "") = calculate_membership_win_rate t none
      ∧ calculate_membership_win_rate t (some "All") = calculate_membership_win_rate t none)
    ∧ (calculate_kpi_hydro_jetting t (some "") = calculate_kpi_hydro_jetting t none
      ∧ calculate_kpi_hydro_jetting t (some "All") = calculate_kpi_hydro_jetting t none)
    ∧ (calculate_kpi_descaling t (some "") = calculate_kpi_descaling t none
      ∧ calculate_kpi_descaling t (some "All") = calculate_kpi_descaling t none)
    ∧ (calculate_on_time_arrival t (some "") = calculate_on_time_arrival t none
      ∧ calculate_on_time_arrival t (some "All") = calculate_on_time_arrival t none)
    ∧ (calculate_warranty_call_rate t (some "") = calculate_warranty_call_rate t none
      ∧ calculate_warranty_call_rate t (some "All") = calculate_warranty_call_rate t none)
    ∧ (calculate_upsell_conversion t (some "") = calculate_upsell_conversion t none
      ∧ calculate_upsell_conversion t (some "All") = calculate_upsell_conversion t none) := by
  have h0 : applyTech t (some "") = applyTech t none := by simp [applyTech]
  have h1 : applyTech t (some "All") = applyTech t none := by simp [applyTech]
  refine ⟨⟨?_, ?_⟩, ⟨?_, ?_⟩, ⟨?_, ?_⟩, ⟨?_, ?_⟩, ⟨?_, ?_⟩, ⟨?_, ?_⟩, ⟨?_, ?_⟩, ⟨?_, ?_⟩,
    ⟨?_, ?_⟩, ⟨?_, ?_⟩⟩ <;>
    simp only [calculate_avg_ticket, calculate_job_close_rate, calculate_avg_job_efficiency,
      calculate_compliance_rate, calculate_membership_win_rate, calculate_kpi_hydro_jetting,
      calculate_kpi_descaling, calculate_on_time_arrival, calculate_warranty_call_rate,
      calculate_upsell_conversion, h0, h1]
